import Mathlib

/-!
Shallow embedding of `app.py` — a FastAPI service with a single POST /generate
endpoint that validates a product request, renders a fixed prompt, calls an
external language model, parses the model text into the `ProductContent`
schema and returns it, collapsing every failure into a generic 500 response.

JSON values are modelled by the inductive `Json`; the pydantic models
`ProductRequest` and `ProductContent` (app.py lines 41-65) become Lean
structures together with validation functions that follow pydantic v2
semantics for the declared fields; the langchain chain
`prompt | llm | parser` (app.py line 155) becomes `chain_invoke`,
parameterised by the external model behaviour; the handler
`generate_product_content` (app.py lines 171-195) becomes a function from
the model behaviour and the request to a `Response`.
-/

/-- A JSON value, the common currency of the HTTP bodies and of the model
output once the library has extracted JSON from the model text. -/
inductive Json where
  | null
  | bool (b : Bool)
  | num (n : Int)
  | str (s : String)
  | arr (elems : List Json)
  | obj (fields : List (String × Json))

/-- Key lookup in a JSON object. Python dicts built by `json.loads` keep the
last occurrence of a duplicated key, hence the search over the reversed
field list. -/
def Json.lookup (fields : List (String × Json)) (key : String) : Option Json :=
  (fields.reverse.find? (fun p => p.1 == key)).map (fun p => p.2)

/-- Whether a JSON value is a string (pydantic v2 lax mode accepts only
actual strings for a `str` field). -/
def Json.isStr : Json → Bool
  | Json.str _ => true
  | _ => false

/-- Interpret a list of JSON values as a list of strings, failing if any
element is not a string — the pydantic validation of a `List[str]` value. -/
def Json.asStrList : List Json → Option (List String)
  | [] => some []
  | Json.str s :: rest => (Json.asStrList rest).map (fun l => s :: l)
  | _ => none

/-- The `ProductContent` pydantic model (app.py lines 41-59): generated
product content for storefront display. -/
structure ProductContent where
  displayName : String
  displayDescription : String
  bulletpoints : Option (List String)
deriving Repr, DecidableEq

/-- The `ProductRequest` pydantic model (app.py lines 63-65): the request
body of POST /generate. -/
structure ProductRequest where
  title : String
  body_html : String
deriving Repr, DecidableEq

/-- Pydantic v2 validation of a JSON value against `ProductContent`:
the value must be an object; `displayName` and `displayDescription` are
required strings; `bulletpoints` defaults to `None`, accepts `null` or a
list of strings, and carries `max_length=5` (app.py lines 45-59). No other
constraint is declared — in particular no minimum length on any field. -/
def ProductContent.validate (j : Json) : Except String ProductContent :=
  match j with
  | Json.obj fields =>
    match Json.lookup fields "displayName" with
    | none => Except.error "displayName: Field required"
    | some v₁ =>
      match v₁ with
      | Json.str displayName =>
        match Json.lookup fields "displayDescription" with
        | none => Except.error "displayDescription: Field required"
        | some v₂ =>
          match v₂ with
          | Json.str displayDescription =>
            match Json.lookup fields "bulletpoints" with
            | none => Except.ok ⟨displayName, displayDescription, none⟩
            | some Json.null => Except.ok ⟨displayName, displayDescription, none⟩
            | some (Json.arr elems) =>
              match Json.asStrList elems with
              | none => Except.error "bulletpoints: Input should be a valid string"
              | some l =>
                if l.length ≤ 5 then
                  Except.ok ⟨displayName, displayDescription, some l⟩
                else
                  Except.error "bulletpoints: List should have at most 5 items"
            | some _ => Except.error "bulletpoints: Input should be a valid list"
          | _ => Except.error "displayDescription: Input should be a valid string"
      | _ => Except.error "displayName: Input should be a valid string"
  | _ => Except.error "Input should be a valid dictionary"

/-- Pydantic v2 validation of a JSON value against `ProductRequest`:
the value must be an object and `title` and `body_html` are required
strings (app.py lines 63-65). Neither field has a minimum length, so the
empty string is accepted for both. -/
def ProductRequest.validate (j : Json) : Except String ProductRequest :=
  match j with
  | Json.obj fields =>
    match Json.lookup fields "title" with
    | none => Except.error "title: Field required"
    | some v₁ =>
      match v₁ with
      | Json.str title =>
        match Json.lookup fields "body_html" with
        | none => Except.error "body_html: Field required"
        | some v₂ =>
          match v₂ with
          | Json.str body_html => Except.ok ⟨title, body_html⟩
          | _ => Except.error "body_html: Input should be a valid string"
      | _ => Except.error "title: Input should be a valid string"
  | _ => Except.error "Input should be a valid dictionary"

/-- Modelled from the spec: the free-form text returned by the external
model, abstracted to the result of the output library's JSON extraction —
`none` when the text cannot be parsed as JSON at all, `some j` when it
parses to the JSON value `j`. The textual JSON reader itself lives in the
langchain/pydantic libraries, outside this repository. -/
abbrev ModelText := Option Json

/-- The `PydanticOutputParser(pydantic_object=ProductContent)` of app.py
line 140: JSON-extract the model text, then validate it against
`ProductContent`; any failure is an output-parsing error carrying a
message. -/
def parser_parse (text : ModelText) : Except String ProductContent :=
  match text with
  | none => Except.error "Failed to parse ProductContent: Invalid json output"
  | some j =>
    match ProductContent.validate j with
    | Except.error e => Except.error ("Failed to parse ProductContent: " ++ e)
    | Except.ok c => Except.ok c

/-- The `LLM_INSTRUCTIONS` string of app.py lines 69-135, the fixed
instruction text substituted into the prompt template. -/
def LLM_INSTRUCTIONS : String :=
  "\nYou are an expert e-commerce copywriter specializing in product descriptions for online stores.\n"
  ++ "\nCRITICAL: ACCURACY AND COMPLIANCE ARE MORE IMPORTANT THAN MARKETING FLARE.\n"
  ++ "\nYour task is to generate optimized product content from Shopify product data:\n"
  ++ "\nINPUT:\n"
  ++ "- title: The original product title (may be long or contain unnecessary words)\n"
  ++ "- body_html: Product description HTML content (may contain specifications, features, etc.)\n"
  ++ "\nOUTPUT REQUIREMENTS:\n"
  ++ "\n1. displayName:\n"
  ++ "   - MUST be shorter than the original title\n"
  ++ "   - Should be 3-8 words\n"
  ++ "   - Remove unnecessary words like brand names, \"SPECIFICATIONS\", technical codes\n"
  ++ "   - Focus on the core product benefit or key feature\n"
  ++ "   - Make it catchy and memorable\n"
  ++ "   - ONLY use words from the title - do not add information not present\n"
  ++ "   - Example: \"Turmeric & Vitamin C Cream\" instead of \"Turmeric & Vitamin C Cream -Lightweight Nourishment for Face& Neck, Fast-Absorbing HydrationAll Skin Types\"\n"
  ++ "\n2. displayDescription:\n"
  ++ "   - Write 2-4 compelling sentences (50-150 words)\n"
  ++ "   - ONLY describe what is explicitly stated in the title and body_html\n"
  ++ "   - If body_html is minimal or empty, work with what you have from the title\n"
  ++ "   - Do NOT invent features, benefits, or specifications that are not mentioned\n"
  ++ "   - If there\x27s limited information, write a shorter but accurate description\n"
  ++ "   - Accuracy is more important than having a long description\n"
  ++ "   - Use natural, marketing-friendly language based on available information\n"
  ++ "   - If input lacks usable info, it\x27s acceptable to have a shorter description\n"
  ++ "\n3. bulletpoints:\n"
  ++ "   - ONLY include bullet points if body_html contains specific, extractable information\n"
  ++ "   - DO NOT create bullet points from generic or obvious information\n"
  ++ "   - DO NOT invent bullet points if body_html is empty or lacks detail\n"
  ++ "   - If body_html has no useful information, return null or empty list []\n"
  ++ "   - Maximum 5 bullet points, but only if you have 5 distinct pieces of information\n"
  ++ "   - If you only have 2 pieces of information, only create 2 bullet points\n"
  ++ "   - It\x27s better to have fewer accurate bullet points than to make up information\n"
  ++ "   - Each bullet should be 5-15 words\n"
  ++ "   - Each bullet must be directly derived from information in body_html\n"
  ++ "   - Each bullet should start with a capital letter and end without punctuation (unless it\x27s a question)\n"
  ++ "\nSTRICT COMPLIANCE GUIDELINES:\n"
  ++ "- NEVER make health claims (e.g., \"cures\", \"treats\", \"prevents\", \"heals\", \"reduces symptoms\")\n"
  ++ "- NEVER make medical claims (e.g., \"FDA approved for\", \"clinically proven to cure\")\n"
  ++ "- Use compliant language: \"may help\", \"supports\", \"designed for\" instead of definitive claims\n"
  ++ "- Avoid phrases that could trigger flags on Google Ads, Meta, Shopify, or payment processors\n"
  ++ "- Prioritize compliance over marketing flair\n"
  ++ "- If unsure about a claim, err on the side of caution and don\x27t include it\n"
  ++ "- Focus on product features and ingredients, not therapeutic benefits\n"
  ++ "- Example: Say \"Contains vitamin C\" not \"Vitamin C cures skin problems\"\n"
  ++ "- Example: Say \"Moisturizing formula\" not \"Eliminates wrinkles and fine lines\"\n"
  ++ "\nACCURACY GUIDELINES:\n"
  ++ "- NEVER add information that is not in the title or body_html\n"
  ++ "- NEVER assume product features, benefits, or specifications\n"
  ++ "- If body_html is empty or minimal, create a description based ONLY on the title\n"
  ++ "- If body_html has no extractable features, set bulletpoints to null or []\n"
  ++ "- Remove HTML tags and formatting from body_html when extracting information\n"
  ++ "- Work with the information you have - incomplete information is acceptable, hallucinated information is not\n"
  ++ "- Accuracy and truthfulness are the highest priorities\n"
  ++ "- If input lacks usable info, it\x27s okay to have less content - no need to make things up\n"
  ++ "\nReturn the data in the ProductContent BaseModel format.\n"

/-- The system message of the chat prompt template (app.py line 144). -/
def SYSTEM_MESSAGE : String :=
  "You are an expert e-commerce copywriter. You must ONLY use information provided in the product data. Do NOT hallucinate or invent information. Prioritize accuracy and compliance over marketing flair. Avoid health claims that could trigger platform flags. Format your response as JSON."

/-- Modelled from the spec: the format specification derived from the
output schema — the string produced by `parser.get_format_instructions()`
(app.py line 151) inside the langchain library. Its exact wording is
library-generated and outside this repository; the service treats it as a
fixed string computed once at process start. -/
def FORMAT_INSTRUCTIONS : String :=
  "The output should be formatted as a JSON instance that conforms to the JSON schema of ProductContent: displayName a string, displayDescription a string, bulletpoints an array of at most 5 strings or null."

/-- The immutable prompt configuration built at process start
(app.py lines 143-152): the system message, the instruction text and the
format instructions that the template has been partially applied to. -/
structure PromptConfiguration where
  system : String
  instructions : String
  format_instructions : String
deriving Repr, DecidableEq

/-- The process-wide state built at import time (app.py lines 138-155):
the prompt configuration, the external model identifier of the
`ChatAnthropic` client, and the pydantic object the output validator is
bound to. -/
structure AppState where
  prompt : PromptConfiguration
  llm_model : String
  parser_object : String
deriving Repr, DecidableEq

/-- The state as constructed at process start. -/
def initAppState : AppState :=
  ⟨⟨SYSTEM_MESSAGE, LLM_INSTRUCTIONS, FORMAT_INSTRUCTIONS⟩,
   "claude-3-haiku-20240307", "ProductContent"⟩

/-- Rendering the chat prompt (app.py lines 143-152): the system message
unchanged, and the human message obtained by substituting the
instructions, the request fields and the format instructions into the
human template of line 145. Returns the (system, human) message pair. -/
def render_prompt (cfg : PromptConfiguration) (title body_html : String) :
    String × String :=
  (cfg.system,
   cfg.instructions
     ++ "\n\nPRODUCT DATA:\nTitle: " ++ title
     ++ "\nBody HTML: " ++ body_html
     ++ "\n\nIMPORTANT: Only use information from the Title and Body HTML above. Do not add any information that is not explicitly stated. If information is missing, work with what you have. Accuracy is more important than completeness. Avoid health claims and prioritize compliance.\n\n"
     ++ cfg.format_instructions)

/-- An error raised by a stage of the chain: either the external model
call failed (network/provider error) or the output parsing/validation
failed. Each carries the message `str(e)` would produce in Python. -/
inductive ChainError where
  | generationFailure (msg : String)
  | outputParseError (msg : String)
deriving Repr, DecidableEq

/-- The stringification `str(e)` of a chain error. -/
def ChainError.toMessage : ChainError → String
  | ChainError.generationFailure m => m
  | ChainError.outputParseError m => m

/-- The behaviour of the external text-generation model: given the model
identifier and the rendered (system, human) prompt pair, either fail with
an error message or produce a model text. This is the single external
dependency of the chain. -/
abbrev ModelBehavior := String → String × String → Except String ModelText

/-- `chain.invoke` for the chain `prompt | llm | parser` (app.py
lines 155, 184-187): render the prompt from the request fields, call the
external model once on it, then parse the model text. The first failing
stage aborts the chain with its error. -/
def chain_invoke (cfg : PromptConfiguration) (model : String)
    (llm : ModelBehavior) (title body_html : String) :
    Except ChainError ProductContent :=
  match llm model (render_prompt cfg title body_html) with
  | Except.error msg => Except.error (ChainError.generationFailure msg)
  | Except.ok text =>
    match parser_parse text with
    | Except.error msg => Except.error (ChainError.outputParseError msg)
    | Except.ok content => Except.ok content

/-- An HTTP response of the service: a success with a status code and the
`ProductContent` body, or an error with a status code and a detail
string. -/
inductive Response where
  | ok (status : Nat) (content : ProductContent)
  | err (status : Nat) (detail : String)
deriving Repr, DecidableEq

/-- The POST /generate handler (app.py lines 171-195) in explicit
state-passing form: it reads the process-wide state, invokes the chain
once and either returns the parsed content with status 200 or catches the
exception and returns a 500 whose detail wraps `str(e)`. The handler never
assigns to the process-wide state, so the returned state is the input
state. -/
def handle_generate (st : AppState) (llm : ModelBehavior)
    (request : ProductRequest) : Response × AppState :=
  match chain_invoke st.prompt st.llm_model llm request.title request.body_html with
  | Except.ok result => (Response.ok 200 result, st)
  | Except.error e =>
    (Response.err 500 ("Error generating product content: " ++ e.toMessage), st)

/-- The POST /generate handler as the caller sees it, run against the
state built at process start. -/
def generate_product_content (llm : ModelBehavior) (request : ProductRequest) :
    Response :=
  (handle_generate initAppState llm request).1

/-- FastAPI serialization of the `response_model=ProductContent` body:
`None` bulletpoints serialize to JSON `null`. -/
def ProductContent.toJson (c : ProductContent) : Json :=
  Json.obj
    [("displayName", Json.str c.displayName),
     ("displayDescription", Json.str c.displayDescription),
     ("bulletpoints",
      match c.bulletpoints with
      | none => Json.null
      | some l => Json.arr (l.map Json.str))]

/-- Modelled from the spec: FastAPI request-body handling for
POST /generate. The framework parses the raw body as JSON (`none` models a
body that is not valid JSON) and validates it against `ProductRequest`;
on either failure it answers with a 422 client error itself and the
handler is not invoked; otherwise it invokes the handler on the validated
request. -/
def post_generate (llm : ModelBehavior) (body : Option Json) : Response :=
  match body with
  | none => Response.err 422 "JSON decode error"
  | some j =>
    match ProductRequest.validate j with
    | Except.error m => Response.err 422 m
    | Except.ok req => generate_product_content llm req

/-- Spec-side predicate, following the spec wording for the request shape:
a JSON object containing string fields `title` and `body_html` (emptiness
of either string is irrelevant). -/
def spec_requestShaped (j : Json) : Bool :=
  match j with
  | Json.obj fields =>
    (match Json.lookup fields "title" with
     | some (Json.str _) => true
     | _ => false)
    &&
    (match Json.lookup fields "body_html" with
     | some (Json.str _) => true
     | _ => false)
  | _ => false

/-- Spec-side predicate, following the spec wording for a schema-conformant
output: `displayName` present as a string, `displayDescription` present as
a string, and `bulletpoints` absent, `null`, or an array of strings. -/
def spec_schemaShaped (j : Json) : Bool :=
  match j with
  | Json.obj fields =>
    (match Json.lookup fields "displayName" with
     | some (Json.str _) => true
     | _ => false)
    &&
    (match Json.lookup fields "displayDescription" with
     | some (Json.str _) => true
     | _ => false)
    &&
    (match Json.lookup fields "bulletpoints" with
     | none => true
     | some Json.null => true
     | some (Json.arr elems) => elems.all Json.isStr
     | some _ => false)
  | _ => false

/-- Spec-side count of bulletpoint entries in a JSON output (0 when the
field is absent, null, or not an array). -/
def spec_bulletCount (j : Json) : Nat :=
  match j with
  | Json.obj fields =>
    match Json.lookup fields "bulletpoints" with
    | some (Json.arr elems) => elems.length
    | _ => 0
  | _ => 0

/-! ### Helper lemmas -/

theorem asStrList_isSome (elems : List Json) :
    (Json.asStrList elems).isSome = elems.all Json.isStr := by
  induction elems with
  | nil => rfl
  | cons x rest ih =>
    cases x <;> simp [Json.asStrList, Json.isStr, List.all_cons, ih]

theorem asStrList_length (elems : List Json) (l : List String)
    (h : Json.asStrList elems = some l) : l.length = elems.length := by
  induction elems generalizing l with
  | nil =>
    simp [Json.asStrList] at h
    simp [h.symm]
  | cons x rest ih =>
    cases x <;> simp [Json.asStrList] at h
    case str s =>
      obtain ⟨l', hl', rfl⟩ := h
      simp [ih l' hl']

theorem validate_request_isOk (j : Json) :
    (ProductRequest.validate j).isOk = spec_requestShaped j := by
  cases j with
  | obj fields =>
    simp only [ProductRequest.validate, spec_requestShaped]
    cases h₁ : Json.lookup fields "title" with
    | none => simp [Except.isOk, Except.toBool]
    | some v₁ =>
      cases v₁ <;> simp [Except.isOk, Except.toBool]
      case str s =>
        cases h₂ : Json.lookup fields "body_html" with
        | none => simp [Except.isOk, Except.toBool]
        | some v₂ => cases v₂ <;> simp [Except.isOk, Except.toBool]
  | null => rfl
  | bool b => rfl
  | num n => rfl
  | str s => rfl
  | arr elems => rfl

theorem all_map_str (l : List String) :
    (l.map Json.str).all Json.isStr = true := by
  induction l with
  | nil => rfl
  | cons x rest ih => simp [Json.isStr, ih]

theorem validate_content_isOk (j : Json) :
    (ProductContent.validate j).isOk = true ↔
      (spec_schemaShaped j = true ∧ spec_bulletCount j ≤ 5) := by
  cases j with
  | obj fields =>
    simp only [ProductContent.validate, spec_schemaShaped, spec_bulletCount]
    cases h₁ : Json.lookup fields "displayName" with
    | none => simp [Except.isOk, Except.toBool]
    | some v₁ =>
      cases v₁
      case str s =>
        cases h₂ : Json.lookup fields "displayDescription" with
        | none => simp [Except.isOk, Except.toBool]
        | some v₂ =>
          cases v₂
          case str s₂ =>
            cases h₃ : Json.lookup fields "bulletpoints" with
            | none => simp [Except.isOk, Except.toBool]
            | some v₃ =>
              cases v₃
              case arr elems =>
                dsimp only
                cases h₄ : Json.asStrList elems with
                | none =>
                  have hall : elems.all Json.isStr = false := by
                    rw [← asStrList_isSome, h₄]
                    rfl
                  simp [Except.isOk, Except.toBool, hall, -List.all_eq_true]
                | some l =>
                  have hall : elems.all Json.isStr = true := by
                    rw [← asStrList_isSome, h₄]
                    rfl
                  have hlen := asStrList_length elems l h₄
                  by_cases h₅ : l.length ≤ 5 <;>
                    simp [Except.isOk, Except.toBool, h₅, hall, ← hlen,
                      -List.all_eq_true]
              case null => simp [Except.isOk, Except.toBool]
              case bool b => simp [Except.isOk, Except.toBool]
              case num n => simp [Except.isOk, Except.toBool]
              case str s₃ => simp [Except.isOk, Except.toBool]
              case obj f₂ => simp [Except.isOk, Except.toBool]
          case null => simp [Except.isOk, Except.toBool]
          case bool b => simp [Except.isOk, Except.toBool]
          case num n => simp [Except.isOk, Except.toBool]
          case arr a => simp [Except.isOk, Except.toBool]
          case obj f₂ => simp [Except.isOk, Except.toBool]
      case null => simp [Except.isOk, Except.toBool]
      case bool b => simp [Except.isOk, Except.toBool]
      case num n => simp [Except.isOk, Except.toBool]
      case arr a => simp [Except.isOk, Except.toBool]
      case obj f₂ => simp [Except.isOk, Except.toBool]
  | null => simp [ProductContent.validate, spec_schemaShaped, Except.isOk, Except.toBool]
  | bool b => simp [ProductContent.validate, spec_schemaShaped, Except.isOk, Except.toBool]
  | num n => simp [ProductContent.validate, spec_schemaShaped, Except.isOk, Except.toBool]
  | str s => simp [ProductContent.validate, spec_schemaShaped, Except.isOk, Except.toBool]
  | arr elems => simp [ProductContent.validate, spec_schemaShaped, Except.isOk, Except.toBool]

theorem validate_content_bullets (j : Json) (c : ProductContent)
    (hv : ProductContent.validate j = Except.ok c) (l : List String)
    (hb : c.bulletpoints = some l) : l.length ≤ 5 := by
  cases j with
  | obj fields =>
    simp only [ProductContent.validate] at hv
    cases h₁ : Json.lookup fields "displayName" <;> rw [h₁] at hv <;>
      try dsimp only at hv
    case none => exact absurd hv (by simp)
    case some v₁ =>
      cases v₁ <;> dsimp only at hv
      case str s =>
        cases h₂ : Json.lookup fields "displayDescription" <;> rw [h₂] at hv <;>
          try dsimp only at hv
        case none => exact absurd hv (by simp)
        case some v₂ =>
          cases v₂ <;> dsimp only at hv
          case str s₂ =>
            cases h₃ : Json.lookup fields "bulletpoints" <;> rw [h₃] at hv <;>
              try dsimp only at hv
            case none =>
              injection hv with hv
              rw [← hv] at hb
              simp at hb
            case some v₃ =>
              cases v₃ <;> dsimp only at hv
              case null =>
                injection hv with hv
                rw [← hv] at hb
                simp at hb
              case arr elems =>
                cases h₄ : Json.asStrList elems <;> rw [h₄] at hv <;>
                  try dsimp only at hv
                case none => exact absurd hv (by simp)
                case some l' =>
                  split at hv
                  next h₅ =>
                    injection hv with hv
                    rw [← hv] at hb
                    simp at hb
                    subst hb
                    exact h₅
                  next h₅ => exact absurd hv (by simp)
              case bool b => exact absurd hv (by simp)
              case num n => exact absurd hv (by simp)
              case str s₃ => exact absurd hv (by simp)
              case obj f₂ => exact absurd hv (by simp)
          case null => exact absurd hv (by simp)
          case bool b => exact absurd hv (by simp)
          case num n => exact absurd hv (by simp)
          case arr a => exact absurd hv (by simp)
          case obj f₂ => exact absurd hv (by simp)
      case null => exact absurd hv (by simp)
      case bool b => exact absurd hv (by simp)
      case num n => exact absurd hv (by simp)
      case arr a => exact absurd hv (by simp)
      case obj f₂ => exact absurd hv (by simp)
  | null => exact absurd hv (by simp [ProductContent.validate])
  | bool b => exact absurd hv (by simp [ProductContent.validate])
  | num n => exact absurd hv (by simp [ProductContent.validate])
  | str s => exact absurd hv (by simp [ProductContent.validate])
  | arr elems => exact absurd hv (by simp [ProductContent.validate])

theorem toJson_shaped (c : ProductContent) :
    spec_schemaShaped (ProductContent.toJson c) = true := by
  cases c with
  | mk dn dd bp =>
    cases bp with
    | none => rfl
    | some l =>
      simpa [ProductContent.toJson, spec_schemaShaped, Json.lookup] using
        all_map_str l

theorem parser_parse_isOk (j : Json) :
    (parser_parse (some j)).isOk = (ProductContent.validate j).isOk := by
  cases hv : ProductContent.validate j <;>
    simp [parser_parse, hv, Except.isOk, Except.toBool]

theorem chain_ok_exists_validate (cfg : PromptConfiguration) (model : String)
    (llm : ModelBehavior) (t b : String) (c : ProductContent)
    (h : chain_invoke cfg model llm t b = Except.ok c) :
    ∃ j, ProductContent.validate j = Except.ok c := by
  unfold chain_invoke at h
  cases hm : llm model (render_prompt cfg t b) <;> rw [hm] at h
  case error msg => simp at h
  case ok text =>
    cases text with
    | none => simp [parser_parse] at h
    | some j =>
      cases hv : ProductContent.validate j <;>
        simp [parser_parse, hv] at h
      case ok c' =>
        refine ⟨j, ?_⟩
        rw [hv, h]

theorem generate_ok_chain (llm : ModelBehavior) (req : ProductRequest)
    (c : ProductContent)
    (h : generate_product_content llm req = Response.ok 200 c) :
    chain_invoke initAppState.prompt initAppState.llm_model llm
      req.title req.body_html = Except.ok c := by
  unfold generate_product_content handle_generate at h
  cases hc : chain_invoke initAppState.prompt initAppState.llm_model llm
      req.title req.body_html <;> rw [hc] at h
  case error e => simp at h
  case ok c' =>
    simp at h
    rw [h]

/-! ### Claim theorems -/

/-- C1: for every valid request (non-empty title), the POST /generate
handler returns either a fully schema-conformant result — `displayName`
string present, `displayDescription` string present, `bulletpoints` an
array of strings or null — with status 200, or a 500 error; never a
partially-shaped success object. -/
theorem generate_full_shape_or_500 (llm : ModelBehavior) (req : ProductRequest)
    (h : req.title ≠ "") :
    (∃ c, generate_product_content llm req = Response.ok 200 c ∧
       spec_schemaShaped (ProductContent.toJson c) = true) ∨
    (∃ d, generate_product_content llm req = Response.err 500 d) := by
  cases hc : chain_invoke initAppState.prompt initAppState.llm_model llm
      req.title req.body_html with
  | ok c =>
    exact Or.inl ⟨c, by simp [generate_product_content, handle_generate, hc],
      toJson_shaped c⟩
  | error e =>
    exact Or.inr ⟨"Error generating product content: " ++ e.toMessage,
      by simp [generate_product_content, handle_generate, hc]⟩

/-- Witness for C1 at a concrete request and a failing model behaviour. -/
theorem generate_full_shape_or_500_witness :
    (∃ c, generate_product_content (fun _ _ => Except.error "boom") ⟨"Lamp", ""⟩
        = Response.ok 200 c ∧
       spec_schemaShaped (ProductContent.toJson c) = true) ∨
    (∃ d, generate_product_content (fun _ _ => Except.error "boom") ⟨"Lamp", ""⟩
        = Response.err 500 d) :=
  generate_full_shape_or_500 (fun _ _ => Except.error "boom") ⟨"Lamp", ""⟩
    (by decide)

/-- C2: whenever any stage of the chain fails — the external model call or
the parsing/validation of its output — the handler returns a single
generic 500 response whose detail string contains the stringified
underlying error; there is no retry (the model is consulted exactly once,
at the rendered prompt), no partial result, and no fallback content. -/
theorem generate_failure_single_500 (llm : ModelBehavior) (req : ProductRequest)
    (e : ChainError)
    (h : chain_invoke initAppState.prompt initAppState.llm_model llm
           req.title req.body_html = Except.error e) :
    generate_product_content llm req =
      Response.err 500 ("Error generating product content: " ++ e.toMessage) ∧
    (∃ pre suf, "Error generating product content: " ++ e.toMessage
        = pre ++ e.toMessage ++ suf) ∧
    (∀ llm' : ModelBehavior,
       llm' initAppState.llm_model
           (render_prompt initAppState.prompt req.title req.body_html)
         = llm initAppState.llm_model
             (render_prompt initAppState.prompt req.title req.body_html) →
       generate_product_content llm' req = generate_product_content llm req) := by
  refine ⟨by simp [generate_product_content, handle_generate, h],
    ⟨"Error generating product content: ", "", by simp⟩, ?_⟩
  intro llm' hagree
  simp [generate_product_content, handle_generate, chain_invoke, hagree]

/-- Witness for C2 at a concrete request and a model behaviour that raises
a simulated network failure. -/
theorem generate_failure_single_500_witness :
    generate_product_content (fun _ _ => Except.error "Simulated network failure")
        ⟨"Chair", "<p>x</p>"⟩ =
      Response.err 500 ("Error generating product content: "
        ++ (ChainError.generationFailure "Simulated network failure").toMessage) ∧
    (∃ pre suf, "Error generating product content: "
        ++ (ChainError.generationFailure "Simulated network failure").toMessage
        = pre ++ (ChainError.generationFailure "Simulated network failure").toMessage
            ++ suf) ∧
    (∀ llm' : ModelBehavior,
       llm' initAppState.llm_model
           (render_prompt initAppState.prompt
             (ProductRequest.mk "Chair" "<p>x</p>").title
             (ProductRequest.mk "Chair" "<p>x</p>").body_html)
         = (fun _ _ => Except.error "Simulated network failure" : ModelBehavior)
             initAppState.llm_model
             (render_prompt initAppState.prompt
               (ProductRequest.mk "Chair" "<p>x</p>").title
               (ProductRequest.mk "Chair" "<p>x</p>").body_html) →
       generate_product_content llm' ⟨"Chair", "<p>x</p>"⟩
         = generate_product_content
             (fun _ _ => Except.error "Simulated network failure")
             ⟨"Chair", "<p>x</p>"⟩) :=
  generate_failure_single_500 (fun _ _ => Except.error "Simulated network failure")
    ⟨"Chair", "<p>x</p>"⟩
    (ChainError.generationFailure "Simulated network failure") rfl

/-- C3: the output parsing stage succeeds exactly when the model text is
parseable into the output schema with at most 5 bulletpoint entries — i.e.
it fails with a schema-validation error iff the text is not parseable into
the schema or the bulletpoints list has more than 5 entries; consequently
every successful response whose bulletpoints are present and non-null has
at most 5 of them. -/
theorem parser_failure_iff_and_bullet_bound :
    (∀ t : ModelText, (parser_parse t).isOk = true ↔
       ∃ j, t = some j ∧ spec_schemaShaped j = true ∧ spec_bulletCount j ≤ 5) ∧
    (∀ (llm : ModelBehavior) (req : ProductRequest) (c : ProductContent)
       (l : List String),
       generate_product_content llm req = Response.ok 200 c →
       c.bulletpoints = some l → l.length ≤ 5) := by
  constructor
  · intro t
    cases t with
    | none => simp [parser_parse, Except.isOk, Except.toBool]
    | some j =>
      rw [parser_parse_isOk, validate_content_isOk]
      constructor
      · intro hp
        exact ⟨j, rfl, hp⟩
      · rintro ⟨j', hj, hp⟩
        injection hj with hj
        rw [hj]
        exact hp
  · intro llm req c l hok hb
    obtain ⟨j, hv⟩ :=
      chain_ok_exists_validate initAppState.prompt initAppState.llm_model
        llm req.title req.body_html c (generate_ok_chain llm req c hok)
    exact validate_content_bullets j c hv l hb

/-- Witness for C3: a successful concrete response with two bulletpoints
satisfies the bound. -/
theorem parser_failure_iff_and_bullet_bound_witness :
    (["Organic", "Vegan"] : List String).length ≤ 5 :=
  parser_failure_iff_and_bullet_bound.2
    (fun _ _ => Except.ok (some (Json.obj
      [("displayName", Json.str "Name"),
       ("displayDescription", Json.str "Desc"),
       ("bulletpoints", Json.arr [Json.str "Organic", Json.str "Vegan"])])))
    ⟨"Title", "Body"⟩ ⟨"Name", "Desc", some ["Organic", "Vegan"]⟩
    ["Organic", "Vegan"] rfl rfl

/-- C4 counterexample: a request whose `title` is the empty string passes
pydantic validation (the claim says validation must fail on an empty
title), and a request missing `body_html` fails validation even though its
title is present and non-empty (the claim says the title is the only
constraint). -/
theorem request_validation_counterexample :
    (ProductRequest.validate (Json.obj
       [("title", Json.str ""), ("body_html", Json.str "<p>desc</p>")])).isOk
      = true ∧
    (ProductRequest.validate (Json.obj [("title", Json.str "Lamp")])).isOk
      = false := ⟨rfl, rfl⟩

/-- C4 (amended): request validation succeeds exactly when the body is a
JSON object with `title` and `body_html` both present as strings — an
empty `title` (and an empty `body_html`) passes, missing or non-string
`title` or `body_html` fails, and no other structural constraint is
imposed. -/
theorem request_validation_characterization (j : Json) :
    (ProductRequest.validate j).isOk = spec_requestShaped j :=
  validate_request_isOk j

/-- C5 counterexample: with a model output whose displayName is longer
than the title "Cream", the handler still returns it as a 200 success, so
a successful displayName is not necessarily strictly shorter than the
input title. -/
theorem displayName_not_shorter_counterexample :
    generate_product_content
      (fun _ _ => Except.ok (some (Json.obj
        [("displayName",
          Json.str "An Exceptionally Long Generated Display Name"),
         ("displayDescription", Json.str "Great cream."),
         ("bulletpoints", Json.null)])))
      ⟨"Cream", "<p>rich</p>"⟩
      = Response.ok 200
          ⟨"An Exceptionally Long Generated Display Name", "Great cream.",
            none⟩ ∧
    ¬("An Exceptionally Long Generated Display Name".length
        < "Cream".length) :=
  ⟨rfl, by decide⟩

/-- C5 (amended): the service enforces no relation between displayName and
the input title — whenever the model output passes schema validation, the
handler returns it unchanged as a 200 success, whatever the length of its
displayName relative to the title (the shorter-than-title requirement is
only an instruction sent to the external model, not a check the code
performs). -/
theorem generate_success_returns_validated_output (llm : ModelBehavior)
    (req : ProductRequest) (j : Json) (c : ProductContent)
    (hllm : llm initAppState.llm_model
        (render_prompt initAppState.prompt req.title req.body_html)
      = Except.ok (some j))
    (hv : ProductContent.validate j = Except.ok c) :
    generate_product_content llm req = Response.ok 200 c := by
  simp [generate_product_content, handle_generate, chain_invoke, hllm,
    parser_parse, hv]

/-- Witness for the amended C5 at a concrete request and model output. -/
theorem generate_success_returns_validated_output_witness :
    generate_product_content
      (fun _ _ => Except.ok (some (Json.obj
        [("displayName", Json.str "Silky Night Serum"),
         ("displayDescription", Json.str "Hydrates overnight.")])))
      ⟨"Serum", ""⟩
      = Response.ok 200 ⟨"Silky Night Serum", "Hydrates overnight.", none⟩ :=
  generate_success_returns_validated_output
    (fun _ _ => Except.ok (some (Json.obj
      [("displayName", Json.str "Silky Night Serum"),
       ("displayDescription", Json.str "Hydrates overnight.")])))
    ⟨"Serum", ""⟩
    (Json.obj [("displayName", Json.str "Silky Night Serum"),
               ("displayDescription", Json.str "Hydrates overnight.")])
    ⟨"Silky Night Serum", "Hydrates overnight.", none⟩ rfl rfl

/-- C6: prompt rendering is a pure, deterministic function of the request
fields — any two renderings of the prompt for the same (title, body_html)
pair yield equal prompt strings; being a Lean function over the immutable
configuration, rendering has no side effects. -/
theorem render_prompt_deterministic (t b t' b' : String)
    (ht : t = t') (hb : b = b') :
    render_prompt initAppState.prompt t b
      = render_prompt initAppState.prompt t' b' := by
  rw [ht, hb]

/-- Witness for C6 at a concrete pair of request fields. -/
theorem render_prompt_deterministic_witness :
    render_prompt initAppState.prompt "Lamp" "<p>x</p>"
      = render_prompt initAppState.prompt "Lamp" "<p>x</p>" :=
  render_prompt_deterministic "Lamp" "<p>x</p>" "Lamp" "<p>x</p>" rfl rfl

/-- C7: the prompt configuration (instruction text plus format-description
text) is constructed once at process start (`initAppState`) and handling
any request leaves the process-wide state — the prompt template, the
instructions, and the parser binding — unchanged. -/
theorem handle_generate_preserves_state (st : AppState) (llm : ModelBehavior)
    (req : ProductRequest) :
    (handle_generate st llm req).2 = st ∧
    (handle_generate initAppState llm req).2.prompt = initAppState.prompt := by
  constructor
  · unfold handle_generate
    split <;> rfl
  · unfold handle_generate
    split <;> rfl

/-- C8: for every POST /generate call whose body is not a JSON object
containing string fields `title` and `body_html` (malformed JSON, or
missing or ill-typed required fields), the framework rejects the request
with a 422 client error and the `generate_product_content` handler is
never invoked — the response is the same for every model behaviour. -/
theorem malformed_body_rejected_without_handler (body : Option Json)
    (h : ∀ j, body = some j → spec_requestShaped j = false) :
    ∃ d, ∀ llm : ModelBehavior,
      post_generate llm body = Response.err 422 d := by
  cases body with
  | none => exact ⟨"JSON decode error", fun llm => rfl⟩
  | some j =>
    have hs := h j rfl
    have hiff := validate_request_isOk j
    rw [hs] at hiff
    cases hval : ProductRequest.validate j with
    | ok req =>
      rw [hval] at hiff
      simp [Except.isOk, Except.toBool] at hiff
    | error m =>
      exact ⟨m, fun llm => by simp [post_generate, hval]⟩

/-- Witness for C8 at a concrete ill-typed body (a numeric title). -/
theorem malformed_body_rejected_without_handler_witness :
    ∃ d, ∀ llm : ModelBehavior,
      post_generate llm (some (Json.obj
        [("title", Json.num 3), ("body_html", Json.str "x")]))
        = Response.err 422 d :=
  malformed_body_rejected_without_handler
    (some (Json.obj [("title", Json.num 3), ("body_html", Json.str "x")]))
    (by
      intro j hj
      injection hj with hj
      rw [← hj]
      rfl)

/-- C9 counterexample: with a non-empty title and an empty body_html, a
model output whose displayName and displayDescription are both empty
strings is returned as a 200 success — the successful response need not
contain a non-empty displayName or displayDescription. -/
theorem empty_body_empty_fields_counterexample :
    generate_product_content
      (fun _ _ => Except.ok (some (Json.obj
        [("displayName", Json.str ""), ("displayDescription", Json.str "")])))
      ⟨"Desk Lamp", ""⟩
      = Response.ok 200 ⟨"", "", none⟩ := rfl

/-- C9 (amended): for every request with a non-empty title and an empty
body_html the service does not crash — the handler always returns either a
200 success carrying a `ProductContent` or a 500 error — but the
non-emptiness of displayName and displayDescription in a successful
response is not enforced by the code. -/
theorem generate_empty_body_no_crash (llm : ModelBehavior)
    (req : ProductRequest) (ht : req.title ≠ "") (hb : req.body_html = "") :
    (∃ c, generate_product_content llm req = Response.ok 200 c) ∨
    (∃ d, generate_product_content llm req = Response.err 500 d) := by
  cases hc : chain_invoke initAppState.prompt initAppState.llm_model llm
      req.title req.body_html with
  | ok c =>
    exact Or.inl ⟨c, by simp [generate_product_content, handle_generate, hc]⟩
  | error e =>
    exact Or.inr ⟨"Error generating product content: " ++ e.toMessage,
      by simp [generate_product_content, handle_generate, hc]⟩

/-- Witness for the amended C9 at a concrete request and a model behaviour
returning unparseable text. -/
theorem generate_empty_body_no_crash_witness :
    (∃ c, generate_product_content (fun _ _ => Except.ok none) ⟨"Mug", ""⟩
        = Response.ok 200 c) ∨
    (∃ d, generate_product_content (fun _ _ => Except.ok none) ⟨"Mug", ""⟩
        = Response.err 500 d) :=
  generate_empty_body_no_crash (fun _ _ => Except.ok none) ⟨"Mug", ""⟩
    (by decide) rfl

/-- C10: the output validator checks only presence and type of displayName
and displayDescription, not non-emptiness — a model output in which both
are the empty string is accepted by the parser and returned to the client
as a 200 success. -/
theorem empty_strings_accepted_and_returned :
    parser_parse (some (Json.obj
      [("displayName", Json.str ""), ("displayDescription", Json.str "")]))
      = Except.ok ⟨"", "", none⟩ ∧
    generate_product_content
      (fun _ _ => Except.ok (some (Json.obj
        [("displayName", Json.str ""), ("displayDescription", Json.str "")])))
      ⟨"Ergonomic Chair", "<p>Sturdy steel frame</p>"⟩
      = Response.ok 200 ⟨"", "", none⟩ := ⟨rfl, rfl⟩
